import Mathlib

/-!
Shallow embedding of the Soroban recurring-revenue contract
(`src/src/lib.rs`) and proofs about its three operations
`init`, `withdraw` and `fix_amount`.

Modelling conventions:
* Contract storage (`e.storage()`) is a record of `Option`-valued fields,
  one per `StorageKey` variant; `has` is `isSome`, `get(..).unwrap()` on an
  absent key is a panic, and `set` updates the field.
* Machine integers are `Nat` (for `u64`) and `Int` (for `i128`) with
  explicit two's-complement wrapping (`% 2^64`, resp. the signed reduction
  `% 2^128`) at the arithmetic operations the Rust code performs, matching
  the wrapping semantics of a Rust release build.  With `overflow-checks`
  enabled the same operations would trap; the theorems that touch
  overflowing arithmetic are stated so that this difference is noted in
  their doc comments.
* A contract invocation ends in one of three ways: a returned `Ok` value,
  a returned typed contract `Error`, or a trap (a Rust panic such as
  `.unwrap()` on `Err`/`None`, or a failed cross-contract call).  The
  `Res` type has one constructor for each.  Each operation returns its
  `Res` outcome together with the storage as the code left it at that
  point (before any host-level rollback), so that the ordering of `set`s
  relative to error returns is visible in the model.
* The external token transfer (`client.xfer_from`) is modelled by a
  boolean parameter `transfer_ok`: the call either succeeds, producing the
  `Transfer` that the code requested, or fails, which in this SDK panics
  the invocation (a trap).
-/

set_option maxRecDepth 8000

namespace RecurringRevenue

/-- The `Error` enum of the contract (`contracterror`, `src/src/lib.rs`). -/
inductive Error where
  | ContractAlreadyInitialized
  | ContractNotInitialized
  | InvalidAuth
  | ReceiverAlreadyWithdrawn
  | PrematureFirstWithdraw
  | InvalidInvoker
  | InvalidArguments
  | ContractNotUpdated
deriving DecidableEq

/-- The Soroban `Address` returned by `e.invoker()`: an account or a
contract.  Account and contract identifiers are abstracted as `Nat`. -/
inductive Address where
  | account (id : Nat)
  | contract (id : Nat)
deriving DecidableEq

/-- Outcome of one contract invocation: a returned value, a returned typed
error, or a trap (Rust panic / failed cross-contract call). -/
inductive Res (α : Type) where
  | ok (a : α)
  | err (e : Error)
  | trap
deriving DecidableEq

/-- Contract storage: one `Option`-valued field per `StorageKey` variant
(`Sender`, `Receiver`, `TokenId`, `StartEpoch`, `Amount`, `Step`,
`Latest`).  `none` means the key is absent. -/
structure Store where
  sender : Option Nat
  receiver : Option Nat
  tokenId : Option Nat
  startEpoch : Option Nat
  amount : Option Int
  step : Option Nat
  latest : Option Nat
deriving DecidableEq

/-- The empty storage of a freshly deployed contract instance. -/
def emptyStore : Store :=
  ⟨none, none, none, none, none, none, none⟩

/-- The arguments the code passes to `client.xfer_from`: the `Sender`
account is debited, the `Receiver` account is credited, by `amount`. -/
structure Transfer where
  sender : Nat
  receiver : Nat
  amount : Int
deriving DecidableEq

/-- Modulus of `u64`. -/
def U64 : Nat := 2 ^ 64

/-- Wrapping `u64` addition, as in `latest + step`. -/
def u64add (a b : Nat) : Nat := (a + b) % U64

/-- Wrapping `u64` subtraction, as in `start_epoch - step` (for operands
below `2^64`; on underflow this wraps around, as a Rust release build
does — with `overflow-checks = true` the same subtraction would trap). -/
def u64sub (a b : Nat) : Nat := (a + U64 - b) % U64

/-- Signed two's-complement reduction of an integer into the `i128`
range, used for the product `amount * step as i128`. -/
def i128wrap (x : Int) : Int := (x + 2 ^ 127) % 2 ^ 128 - 2 ^ 127

/-- `fn to_account` (`src/src/lib.rs`): converts the invoker `Address`
into an `AccountId`, or `Err(Error::InvalidInvoker)` for a contract. -/
def to_account : Address → Except Error Nat
  | .account id => .ok id
  | .contract _ => .error Error.InvalidInvoker

/-- `fn init` (`src/src/lib.rs`).  Checks, in source order: the
`TokenId` key must be absent (`ContractAlreadyInitialized` otherwise),
`step != 0` and `amount * step != 0` as `i128` (`InvalidArguments`
otherwise); then it sets `TokenId`, then `Sender` to
`to_account(e.invoker()).unwrap()` — a panic, hence `.trap`, when the
invoker is a contract, occurring after the `TokenId` set — then
`Receiver`, `StartEpoch`, `Amount`, `Step`, and finally
`Latest = start_epoch - step` (wrapping `u64` subtraction). -/
def init (invoker : Address) (receiver : Nat) (token_id : Nat)
    (start_epoch : Nat) (amount : Int) (step : Nat) (s : Store) :
    Res Unit × Store :=
  if (s.tokenId).isSome then (.err .ContractAlreadyInitialized, s)
  else if step = 0 then (.err .InvalidArguments, s)
  else if i128wrap (amount * (step : Int)) = 0 then (.err .InvalidArguments, s)
  else
    let s1 : Store := { s with tokenId := some token_id }
    match to_account invoker with
    | .error _ => (.trap, s1)
    | .ok sender_id =>
      let s2 : Store := { s1 with sender := some sender_id }
      let s3 : Store := { s2 with receiver := some receiver }
      let s4 : Store := { s3 with startEpoch := some start_epoch }
      let s5 : Store := { s4 with amount := some amount }
      let s6 : Store := { s5 with step := some step }
      let s7 : Store := { s6 with latest := some (u64sub start_epoch step) }
      (.ok (), s7)

/-- `fn withdraw` (`src/src/lib.rs`).  In source order: the `TokenId` key
must be present (`ContractNotInitialized` otherwise); the invoker must be
an account (`InvalidInvoker` otherwise); then `Receiver`, `Step`,
`Amount`, `StartEpoch` are read (`.unwrap()` — trap — if absent); if
`start_epoch > now` the result is `PrematureFirstWithdraw`; `Latest` is
read; if `latest + step > now` (wrapping `u64` addition) the result is
`ReceiverAlreadyWithdrawn`; then `xfer_from` moves `amount` from `Sender`
to `Receiver` (a failed transfer panics the invocation), and on success
`Latest` is set to `latest + step`. -/
def withdraw (invoker : Address) (now : Nat) (transfer_ok : Bool)
    (s : Store) : Res Transfer × Store :=
  match s.tokenId with
  | none => (.err .ContractNotInitialized, s)
  | some _ =>
    match invoker with
    | .contract _ => (.err .InvalidInvoker, s)
    | .account _ =>
      match s.receiver with
      | none => (.trap, s)
      | some receiver =>
        match s.step with
        | none => (.trap, s)
        | some step =>
          match s.amount with
          | none => (.trap, s)
          | some amount =>
            match s.startEpoch with
            | none => (.trap, s)
            | some start_epoch =>
              if start_epoch > now then (.err .PrematureFirstWithdraw, s)
              else
                match s.latest with
                | none => (.trap, s)
                | some latest =>
                  if u64add latest step > now then
                    (.err .ReceiverAlreadyWithdrawn, s)
                  else
                    match s.sender with
                    | none => (.trap, s)
                    | some sender =>
                      if transfer_ok then
                        (.ok ⟨sender, receiver, amount⟩,
                         { s with latest := some (u64add latest step) })
                      else (.trap, s)

/-- `fn fix_amount` (`src/src/lib.rs`).  In source order: `amount != 0`
(`InvalidArguments` otherwise); the `TokenId` key must be present
(`ContractNotInitialized` otherwise); the stored `Amount` must differ
from the argument (`InvalidArguments` otherwise); then `Amount` is set
and re-read, with `ContractNotUpdated` if the re-read value differs. -/
def fix_amount (amount : Int) (s : Store) : Res Unit × Store :=
  if amount = 0 then (.err .InvalidArguments, s)
  else if (s.tokenId).isNone then (.err .ContractNotInitialized, s)
  else
    match s.amount with
    | none => (.trap, s)
    | some old_amount =>
      if old_amount = amount then (.err .InvalidArguments, s)
      else
        let s1 : Store := { s with amount := some amount }
        match s1.amount with
        | none => (.trap, s1)
        | some updated_amount =>
          if updated_amount ≠ amount then (.err .ContractNotUpdated, s1)
          else (.ok (), s1)

/-- An initialized storage record: all seven fields present.  `init` is
the only operation that creates fields, and it writes all seven, so every
reachable storage with `TokenId` present has this shape. -/
structure Record where
  sender : Nat
  receiver : Nat
  tokenId : Nat
  startEpoch : Nat
  amount : Int
  step : Nat
  latest : Nat
deriving DecidableEq

/-- The storage holding exactly the fields of an initialized record. -/
def Record.toStore (r : Record) : Store :=
  ⟨some r.sender, some r.receiver, some r.tokenId, some r.startEpoch,
   some r.amount, some r.step, some r.latest⟩

/-- A sample initialized record used by concrete witnesses:
`init` by account 1 with receiver 2, token 3, `start_epoch = 100`,
`amount = 10`, `step = 7` leaves `latest = 93`. -/
def sampleRecord : Record :=
  ⟨1, 2, 3, 100, 10, 7, 93⟩

example :
    init (.account 1) 2 3 100 10 7 emptyStore =
      (.ok (), sampleRecord.toStore) := rfl

/-- The record `sampleRecord` after one successful withdrawal: the
schedule cursor `latest` has advanced from `93` to `100`. -/
def sampleRecord2 : Record :=
  ⟨1, 2, 3, 100, 10, 7, 100⟩

/-- Wrapping `u64` addition without overflow is plain addition. -/
theorem u64add_of_lt (a b : Nat) (h : a + b < U64) : u64add a b = a + b :=
  Nat.mod_eq_of_lt h

/-- Wrapping `u64` subtraction without underflow is plain subtraction. -/
theorem u64sub_of_le (a b : Nat) (hba : b ≤ a) (ha : a < U64) :
    u64sub a b = a - b := by
  unfold u64sub
  have h1 : a + U64 - b = (a - b) + U64 := by omega
  rw [h1, Nat.add_mod_right, Nat.mod_eq_of_lt (by omega)]

/-- Evaluation of `withdraw` by an account caller on an initialized
record: only the two timing gates and the transfer outcome remain. -/
theorem withdraw_toStore (r : Record) (id now : Nat) (t_ok : Bool) :
    withdraw (.account id) now t_ok r.toStore =
      if r.startEpoch > now then (.err .PrematureFirstWithdraw, r.toStore)
      else if u64add r.latest r.step > now then
        (.err .ReceiverAlreadyWithdrawn, r.toStore)
      else if t_ok then
        (.ok ⟨r.sender, r.receiver, r.amount⟩,
         { r.toStore with latest := some (u64add r.latest r.step) })
      else (.trap, r.toStore) := rfl

/-- Evaluation of `init` on a storage whose `TokenId` key is absent. -/
theorem init_uninit (inv : Address) (rec tok se : Nat) (am : Int)
    (st : Nat) (s : Store) (hTok : s.tokenId = none) :
    init inv rec tok se am st s =
      if st = 0 then (.err .InvalidArguments, s)
      else if i128wrap (am * (st : Int)) = 0 then (.err .InvalidArguments, s)
      else
        match inv with
        | .contract _ => (.trap, { s with tokenId := some tok })
        | .account id =>
          (.ok (), ⟨some id, some rec, some tok, some se, some am, some st,
                    some (u64sub se st)⟩) := by
  rcases s with ⟨f1, f2, f3, f4, f5, f6, f7⟩
  cases hTok
  cases inv <;> rfl

/-- Evaluation of `fix_amount` on an initialized record: the
post-write re-read always matches, so `ContractNotUpdated` is dead. -/
theorem fix_amount_toStore (r : Record) (a : Int) :
    fix_amount a r.toStore =
      if a = 0 then (.err .InvalidArguments, r.toStore)
      else if r.amount = a then (.err .InvalidArguments, r.toStore)
      else (.ok (), { r.toStore with amount := some a }) := by
  by_cases h0 : a = 0
  · simp [fix_amount, h0]
  · by_cases he : r.amount = a
    · simp [fix_amount, Record.toStore, h0, he]
    · simp [fix_amount, Record.toStore, h0, he]

/-- C6: on an initialized record, a withdrawal by an account caller at a
ledger time `now` with `start_epoch > now` fails with
`PrematureFirstWithdraw`, for every transfer outcome (so regardless of
balance or allowance sufficiency), before the cursor test — the cursor
field `latest` is arbitrary here — and with no change to the storage. -/
theorem withdraw_premature (r : Record) (id now : Nat) (t_ok : Bool)
    (h : r.startEpoch > now) :
    withdraw (.account id) now t_ok r.toStore =
      (.err .PrematureFirstWithdraw, r.toStore) := by
  rw [withdraw_toStore, if_pos h]

/-- Witness for C6: `sampleRecord` has `start_epoch = 100 > 50`. -/
theorem withdraw_premature_witness :
    withdraw (.account 5) 50 true sampleRecord.toStore =
      (.err .PrematureFirstWithdraw, sampleRecord.toStore) :=
  withdraw_premature sampleRecord 5 50 true (by decide)

/-- C1: on an initialized record, for an account caller with
`start_epoch ≤ now` and a non-overflowing cursor sum: if
`latest + step > now` then `withdraw` fails with
`ReceiverAlreadyWithdrawn`, no transfer is produced and the storage is
unchanged; if `latest + step ≤ now` the gate passes (the result is never
that error). -/
theorem withdraw_cursor_gate (r : Record) (id now : Nat) (t_ok : Bool)
    (hstart : r.startEpoch ≤ now) (hnof : r.latest + r.step < U64) :
    (r.latest + r.step > now →
       withdraw (.account id) now t_ok r.toStore =
         (.err .ReceiverAlreadyWithdrawn, r.toStore)) ∧
    (r.latest + r.step ≤ now →
       (withdraw (.account id) now t_ok r.toStore).fst ≠
         .err .ReceiverAlreadyWithdrawn) := by
  have hadd : u64add r.latest r.step = r.latest + r.step :=
    u64add_of_lt _ _ hnof
  constructor
  · intro hlt
    rw [withdraw_toStore, if_neg (by omega), hadd, if_pos hlt]
  · intro hge
    rw [withdraw_toStore, if_neg (by omega), hadd, if_neg (by omega)]
    cases t_ok <;> simp

/-- Witness for C1: `sampleRecord2` (cursor at 100, step 7) at time 105:
the gate `100 + 7 > 105` fires. -/
theorem withdraw_cursor_gate_witness :
    withdraw (.account 4) 105 true sampleRecord2.toStore =
      (.err .ReceiverAlreadyWithdrawn, sampleRecord2.toStore) :=
  (withdraw_cursor_gate sampleRecord2 4 105 true (by decide)
    (by decide)).1 (by decide)

/-- C2: on an initialized record whose cursor sum does not overflow and
whose step is positive (as `init` guarantees): every successful
`withdraw`, by any caller and at any time, sets `latest` to exactly the
old `latest + step` — in particular strictly larger — and leaves every
other field unchanged; `fix_amount` never changes `latest`; and `init`
on the initialized record fails with `ContractAlreadyInitialized`
without change.  Hence successful withdrawals advance `latest` by
exactly `step` each time. -/
theorem latest_step_advance (r : Record)
    (hnof : r.latest + r.step < U64) (hstep : 0 < r.step) :
    (∀ inv now t_ok t s', withdraw inv now t_ok r.toStore = (.ok t, s') →
       s' = { r.toStore with latest := some (r.latest + r.step) } ∧
       r.latest < r.latest + r.step) ∧
    (∀ a res s', fix_amount a r.toStore = (res, s') →
       s'.latest = some r.latest) ∧
    (∀ inv rec tok se am st res s',
       init inv rec tok se am st r.toStore = (res, s') →
       res = .err .ContractAlreadyInitialized ∧ s' = r.toStore) := by
  have hadd : u64add r.latest r.step = r.latest + r.step :=
    u64add_of_lt _ _ hnof
  refine ⟨?_, ?_, ?_⟩
  · intro inv now t_ok t s' h
    cases inv with
    | contract cid =>
      simp [withdraw, Record.toStore] at h
    | account id =>
      rw [withdraw_toStore] at h
      split_ifs at h with h1 h2 h3
      · exact absurd (congrArg Prod.fst h) (by simp)
      · exact absurd (congrArg Prod.fst h) (by simp)
      · refine ⟨?_, by omega⟩
        have := congrArg Prod.snd h
        simp at this
        rw [← this, hadd]
      · exact absurd (congrArg Prod.fst h) (by simp)
  · intro a res s' h
    rw [fix_amount_toStore] at h
    split_ifs at h <;>
      · have := congrArg Prod.snd h
        simp at this
        rw [← this]
        rfl
  · intro inv rec tok se am st res s' h
    simp [init, Record.toStore] at h
    exact ⟨h.1.symm, h.2.symm⟩

/-- Witness for C2: a successful withdrawal from `sampleRecord` at time
200 advances the cursor from 93 to exactly 93 + 7 = 100. -/
theorem latest_step_advance_witness :
    sampleRecord2.toStore =
      { sampleRecord.toStore with
          latest := some (sampleRecord.latest + sampleRecord.step) } ∧
    sampleRecord.latest < sampleRecord.latest + sampleRecord.step :=
  (latest_step_advance sampleRecord (by decide) (by decide)).1
    (.account 4) 200 true ⟨1, 2, 10⟩ sampleRecord2.toStore (by decide)

/-- Frame helper: an `init` invocation that returns a typed error has not
changed the storage. -/
theorem init_err_frame (inv : Address) (rec tok se : Nat) (am : Int)
    (st : Nat) (s : Store) :
    ∀ e s', init inv rec tok se am st s = (.err e, s') → s' = s := by
  intro e s' h
  unfold init at h
  repeat' split at h
  all_goals first
    | (cases h; rfl)
    | (injection h with h1 h2; exact Res.noConfusion h1)

/-- Frame helper: a `withdraw` invocation that returns a typed error has
not changed the storage. -/
theorem withdraw_err_frame (inv : Address) (now : Nat) (t_ok : Bool)
    (s : Store) :
    ∀ e s', withdraw inv now t_ok s = (.err e, s') → s' = s := by
  intro e s' h
  unfold withdraw at h
  repeat' split at h
  all_goals first
    | (cases h; rfl)
    | (injection h with h1 h2; exact Res.noConfusion h1)

/-- Frame helper: a `fix_amount` invocation that returns a typed error
has not changed the storage, for every storage in which the stored
amount reads back as written (which the `Store` model guarantees). -/
theorem fix_amount_err_frame (a : Int) (s : Store) :
    ∀ e s', fix_amount a s = (.err e, s') → s' = s := by
  intro e s' h
  unfold fix_amount at h
  split at h
  · cases h; rfl
  · split at h
    · cases h; rfl
    · split at h
      · injection h with h1 h2; exact Res.noConfusion h1
      · split at h
        · cases h; rfl
        · dsimp only at h
          split at h
          · rename_i hna; exact absurd rfl hna
          · injection h with h1 h2; exact Res.noConfusion h1

/-- C3: for each of `init`, `withdraw` and `fix_amount`, on every input
and every starting storage (even a partial one), if the invocation
returns a typed error then the storage it leaves behind is exactly the
starting storage: every precondition failure is reported strictly
before any `set`.  (The one post-`set` error path, `ContractNotUpdated`
in `fix_amount`, is unreachable because the store returns what was
written.) -/
theorem err_no_mutation (inv : Address) (rec tok se : Nat) (am : Int)
    (st : Nat) (now : Nat) (t_ok : Bool) (a : Int) (s : Store) :
    (∀ e s', init inv rec tok se am st s = (.err e, s') → s' = s) ∧
    (∀ e s', withdraw inv now t_ok s = (.err e, s') → s' = s) ∧
    (∀ e s', fix_amount a s = (.err e, s') → s' = s) :=
  ⟨init_err_frame inv rec tok se am st s,
   withdraw_err_frame inv now t_ok s,
   fix_amount_err_frame a s⟩

/-- Witness for C3: concrete erroring invocations (bad `step` at `init`,
uninitialized `withdraw`, zero `fix_amount`) leave the empty storage
untouched. -/
theorem err_no_mutation_witness :
    emptyStore = emptyStore ∧ emptyStore = emptyStore ∧
      emptyStore = emptyStore :=
  ⟨(err_no_mutation (.account 1) 2 3 100 10 0 50 true 0 emptyStore).1
      .InvalidArguments emptyStore (by decide),
   (err_no_mutation (.account 1) 2 3 100 10 0 50 true 0 emptyStore).2.1
      .ContractNotInitialized emptyStore (by decide),
   (err_no_mutation (.account 1) 2 3 100 10 0 50 true 0 emptyStore).2.2
      .InvalidArguments emptyStore (by decide)⟩

/-- C4 counterexample: `init` by a contract caller on an uninitialized
record with valid arguments does not return the typed `InvalidInvoker`
error — the code calls `to_account(e.invoker()).unwrap()`, and `unwrap`
on `Err` panics, so the invocation traps instead. -/
theorem init_contract_invoker_cex :
    (init (.contract 7) 2 3 100 10 7 emptyStore).fst ≠
      .err .InvalidInvoker ∧
    (init (.contract 7) 2 3 100 10 7 emptyStore).fst = .trap := by
  constructor
  · intro h
    exact Res.noConfusion h
  · rfl

/-- C4 (amended): `withdraw` on an initialized record by a contract
caller fails by returning `InvalidInvoker` with no storage change;
`init` on an uninitialized record with valid arguments by a contract
caller also fails, but by trapping (panic in `unwrap` on the
`InvalidInvoker` result) rather than by returning the typed error. -/
theorem invalid_invoker_handling (r : Record) (cid now : Nat)
    (t_ok : Bool) (rec tok se : Nat) (am : Int) (st : Nat) (s : Store)
    (hTok : s.tokenId = none) (hst : st ≠ 0)
    (ham : i128wrap (am * (st : Int)) ≠ 0) :
    withdraw (.contract cid) now t_ok r.toStore =
      (.err .InvalidInvoker, r.toStore) ∧
    (init (.contract cid) rec tok se am st s).fst = .trap := by
  constructor
  · rfl
  · rw [init_uninit _ _ _ _ _ _ _ hTok, if_neg hst, if_neg ham]

/-- Witness for C4 (amended) at concrete inputs: contract caller 9,
`sampleRecord` for `withdraw`, the empty storage with valid `init`
arguments. -/
theorem invalid_invoker_handling_witness :
    withdraw (.contract 9) 0 false sampleRecord.toStore =
      (.err .InvalidInvoker, sampleRecord.toStore) ∧
    (init (.contract 9) 2 3 100 10 7 emptyStore).fst = .trap :=
  invalid_invoker_handling sampleRecord 9 0 false 2 3 100 10 7
    emptyStore rfl (by decide) (by decide)

/-- C5 counterexample: `init` with `start_epoch = 10`, `step = 5`; the
first withdrawal at time 15 (epsilon 5) succeeds, and a second
withdrawal also at time 15 — a ledger time strictly before
`T0 + epsilon + S = 20` — succeeds as well (the cursor is at 10 after
the first withdrawal, and `10 + 5 > 15` is false), instead of failing
with `ReceiverAlreadyWithdrawn` as the claim states. -/
theorem exactly_once_cex :
    (withdraw (.account 4) 15 true
        ((init (.account 1) 2 3 10 1 5 emptyStore).snd)).fst =
      .ok ⟨1, 2, 1⟩ ∧
    (withdraw (.account 4) 15 true
        (withdraw (.account 4) 15 true
            ((init (.account 1) 2 3 10 1 5 emptyStore).snd)).snd).fst ≠
      .err .ReceiverAlreadyWithdrawn ∧
    (withdraw (.account 4) 15 true
        (withdraw (.account 4) 15 true
            ((init (.account 1) 2 3 10 1 5 emptyStore).snd)).snd).fst =
      .ok ⟨1, 2, 1⟩ := by
  refine ⟨rfl, ?_, rfl⟩
  intro h
  rw [(rfl : (withdraw (.account 4) 15 true
      (withdraw (.account 4) 15 true
          ((init (.account 1) 2 3 10 1 5 emptyStore).snd)).snd).fst =
        .ok ⟨1, 2, 1⟩)] at h
  exact Res.noConfusion h

/-- C5 (amended): after `init` with `start_epoch = T0`, `step = S`
(valid arguments, no `u64` overflow, `S ≤ T0`), a first withdrawal at
`T0 + epsilon` (`epsilon ≥ 0`) succeeds, and an immediately following
withdrawal at any ledger time `now2` with `T0 ≤ now2 < T0 + S` fails
with `ReceiverAlreadyWithdrawn`.  The failing window ends at `T0 + S`
(one step past the cursor, which the first withdrawal set to `T0`), not
at `T0 + epsilon + S` as the claim states: for times in
`[T0 + S, T0 + epsilon + S)` a second catch-up withdrawal succeeds, as
the counterexample shows. -/
theorem exactly_once_per_period (id1 id2 id3 rec tok T0 : Nat)
    (am : Int) (S eps now2 : Nat) (hS : S ≠ 0)
    (ham : i128wrap (am * (S : Int)) ≠ 0) (hT0 : S ≤ T0)
    (hnofe : T0 + eps < U64) (hnofS : T0 + S < U64)
    (hlo : T0 ≤ now2) (hhi : now2 < T0 + S) :
    (init (.account id1) rec tok T0 am S emptyStore).fst = .ok () ∧
    (withdraw (.account id2) (T0 + eps) true
        (init (.account id1) rec tok T0 am S emptyStore).snd).fst =
      .ok ⟨id1, rec, am⟩ ∧
    (withdraw (.account id3) now2 true
        (withdraw (.account id2) (T0 + eps) true
            (init (.account id1) rec tok T0 am S emptyStore).snd).snd).fst =
      .err .ReceiverAlreadyWithdrawn := by
  have hT0U : T0 < U64 := by omega
  have hsub : u64sub T0 S = T0 - S := u64sub_of_le T0 S hT0 hT0U
  have hadd1 : u64add (T0 - S) S = T0 := by
    have h := u64add_of_lt (T0 - S) S (by omega)
    omega
  have hadd2 : u64add T0 S = T0 + S := u64add_of_lt T0 S hnofS
  have h0 : init (.account id1) rec tok T0 am S emptyStore =
      (.ok (), Record.toStore ⟨id1, rec, tok, T0, am, S, T0 - S⟩) := by
    rw [init_uninit _ _ _ _ _ _ _ rfl, if_neg hS, if_neg ham]
    simp [Record.toStore, hsub]
  have h1 : withdraw (.account id2) (T0 + eps) true
      (Record.toStore ⟨id1, rec, tok, T0, am, S, T0 - S⟩) =
      (.ok ⟨id1, rec, am⟩,
       Record.toStore ⟨id1, rec, tok, T0, am, S, T0⟩) := by
    rw [withdraw_toStore]
    dsimp only
    rw [hadd1, if_neg (by omega), if_neg (by omega)]
    simp [Record.toStore]
  have h2 : withdraw (.account id3) now2 true
      (Record.toStore ⟨id1, rec, tok, T0, am, S, T0⟩) =
      (.err .ReceiverAlreadyWithdrawn,
       Record.toStore ⟨id1, rec, tok, T0, am, S, T0⟩) := by
    rw [withdraw_toStore]
    dsimp only
    rw [hadd2, if_neg (by omega), if_pos (by omega)]
  rw [h0]
  dsimp only
  rw [h1]
  dsimp only
  rw [h2]
  exact ⟨rfl, rfl, rfl⟩

/-- Witness for C5 (amended): `T0 = 100`, `S = 7`, `epsilon = 0`, second
withdrawal at time 106. -/
theorem exactly_once_per_period_witness :
    (init (.account 1) 2 3 100 10 7 emptyStore).fst = .ok () ∧
    (withdraw (.account 4) 100 true
        (init (.account 1) 2 3 100 10 7 emptyStore).snd).fst =
      .ok ⟨1, 2, 10⟩ ∧
    (withdraw (.account 5) 106 true
        (withdraw (.account 4) 100 true
            (init (.account 1) 2 3 100 10 7 emptyStore).snd).snd).fst =
      .err .ReceiverAlreadyWithdrawn :=
  exactly_once_per_period 1 4 5 2 3 100 10 7 0 106 (by decide)
    (by decide) (by decide) (by decide) (by decide) (by decide) (by decide)

/-- C7: on an uninitialized storage, `init` by an account caller with
valid arguments (`step ≠ 0`, `amount * step ≠ 0` as `i128`, and
`step ≤ start_epoch` so the cursor subtraction does not underflow)
succeeds, persisting all seven fields — `sender` set to the caller and
`latest = start_epoch - step`; and every subsequent `init`, with any
arguments and any caller, fails with `ContractAlreadyInitialized` and
changes no stored field. -/
theorem init_exactly_once (id rec tok se : Nat) (am : Int) (st : Nat)
    (s : Store) (hTok : s.tokenId = none) (hst : st ≠ 0)
    (ham : i128wrap (am * (st : Int)) ≠ 0) (hle : st ≤ se)
    (hseU : se < U64) (s2 : Store) (hs2 : s2.tokenId.isSome = true)
    (inv2 : Address) (rec2 tok2 se2 : Nat) (am2 : Int) (st2 : Nat) :
    init (.account id) rec tok se am st s =
      (.ok (), ⟨some id, some rec, some tok, some se, some am, some st,
                some (se - st)⟩) ∧
    init inv2 rec2 tok2 se2 am2 st2 s2 =
      (.err .ContractAlreadyInitialized, s2) := by
  constructor
  · rw [init_uninit _ _ _ _ _ _ _ hTok, if_neg hst, if_neg ham]
    simp [u64sub_of_le se st hle hseU]
  · unfold init
    rw [if_pos hs2]

/-- Witness for C7: first `init` on the empty storage persists the
fields of `sampleRecord`; a second `init` on that storage fails with
`ContractAlreadyInitialized` and leaves it unchanged. -/
theorem init_exactly_once_witness :
    init (.account 1) 2 3 100 10 7 emptyStore =
      (.ok (), ⟨some 1, some 2, some 3, some 100, some 10, some 7,
                some 93⟩) ∧
    init (.account 8) 5 6 200 20 9 sampleRecord.toStore =
      (.err .ContractAlreadyInitialized, sampleRecord.toStore) :=
  init_exactly_once 1 2 3 100 10 7 emptyStore rfl (by decide)
    (by decide) (by decide) (by decide) sampleRecord.toStore rfl
    (.account 8) 5 6 200 20 9

/-- C8 counterexample: on an already-initialized storage, `init` with
`step = 0` fails with `ContractAlreadyInitialized`, not with
`InvalidArguments` — the initialization guard is checked before the
zero-guards, so the claim's "for every call" fails. -/
theorem zero_guard_cex :
    (init (.account 0) 2 3 100 10 0 sampleRecord.toStore).fst ≠
      .err .InvalidArguments ∧
    init (.account 0) 2 3 100 10 0 sampleRecord.toStore =
      (.err .ContractAlreadyInitialized, sampleRecord.toStore) := by
  constructor
  · intro h
    have : Error.ContractAlreadyInitialized = Error.InvalidArguments :=
      Res.err.inj h
    exact Error.noConfusion this
  · rfl

/-- C8 (amended): on an uninitialized storage, `init` with `step = 0`
fails with `InvalidArguments`, and `init` with `amount * step = 0` as
128-bit arithmetic fails with `InvalidArguments` (on an initialized
storage the `ContractAlreadyInitialized` guard fires first);
`fix_amount 0` fails with `InvalidArguments` on every storage; and
`fix_amount` of the currently stored amount fails with
`InvalidArguments` on every initialized record. -/
theorem zero_guard (inv : Address) (rec tok se : Nat) (am : Int)
    (st : Nat) (s : Store) (hTok : s.tokenId = none) (r : Record)
    (s2 : Store) :
    init inv rec tok se am 0 s = (.err .InvalidArguments, s) ∧
    (i128wrap (am * (st : Int)) = 0 →
       init inv rec tok se am st s = (.err .InvalidArguments, s)) ∧
    fix_amount 0 s2 = (.err .InvalidArguments, s2) ∧
    fix_amount r.amount r.toStore =
      (.err .InvalidArguments, r.toStore) := by
  refine ⟨?_, ?_, ?_, ?_⟩
  · rw [init_uninit _ _ _ _ _ _ _ hTok, if_pos rfl]
  · intro ham
    rw [init_uninit _ _ _ _ _ _ _ hTok]
    by_cases hst : st = 0
    · rw [if_pos hst]
    · rw [if_neg hst, if_pos ham]
  · unfold fix_amount
    rw [if_pos rfl]
  · rw [fix_amount_toStore]
    by_cases h0 : r.amount = 0
    · rw [if_pos h0]
    · rw [if_neg h0, if_pos rfl]

/-- Witness for C8 (amended): concrete zero-guard failures — `step = 0`
at `init`, `amount = 0` (so a zero `i128` product) at `init`,
`fix_amount 0`, and `fix_amount` of the stored amount of
`sampleRecord`. -/
theorem zero_guard_witness :
    init (.account 0) 2 3 100 10 0 emptyStore =
      (.err .InvalidArguments, emptyStore) ∧
    init (.account 0) 2 3 100 0 5 emptyStore =
      (.err .InvalidArguments, emptyStore) ∧
    fix_amount 0 emptyStore = (.err .InvalidArguments, emptyStore) ∧
    fix_amount sampleRecord.amount sampleRecord.toStore =
      (.err .InvalidArguments, sampleRecord.toStore) :=
  ⟨(zero_guard (.account 0) 2 3 100 10 5 emptyStore rfl sampleRecord
      emptyStore).1,
   (zero_guard (.account 0) 2 3 100 0 5 emptyStore rfl sampleRecord
      emptyStore).2.1 (by decide),
   (zero_guard (.account 0) 2 3 100 10 5 emptyStore rfl sampleRecord
      emptyStore).2.2.1,
   (zero_guard (.account 0) 2 3 100 10 5 emptyStore rfl sampleRecord
      emptyStore).2.2.2⟩

/-- C9: on an initialized record, `fix_amount` with a nonzero amount
different from the stored one succeeds and the resulting storage
differs only in `amount`: `sender`, `receiver`, `funding_asset`
(`tokenId`), `start_epoch`, `step` and `latest` are all unchanged, so
the adjustment never alters withdrawal timing. -/
theorem fix_amount_frame (r : Record) (a : Int) (ha : a ≠ 0)
    (hne : a ≠ r.amount) :
    fix_amount a r.toStore =
      (.ok (), ⟨some r.sender, some r.receiver, some r.tokenId,
                some r.startEpoch, some a, some r.step,
                some r.latest⟩) := by
  rw [fix_amount_toStore, if_neg ha, if_neg (fun h => hne h.symm)]
  rfl

/-- Witness for C9: changing `sampleRecord`'s amount from 10 to 25
changes the `amount` field only. -/
theorem fix_amount_frame_witness :
    fix_amount 25 sampleRecord.toStore =
      (.ok (), ⟨some 1, some 2, some 3, some 100, some 25, some 7,
                some 93⟩) :=
  fix_amount_frame sampleRecord 25 (by decide) (by decide)

/-- C10: on an uninitialized storage, `init` by an account caller with
valid arguments but `start_epoch < step` does not return a typed error
and does not store a cursor one step before `start_epoch`: the `u64`
subtraction `start_epoch - step` underflows, and under the wrapping
semantics modelled here the call succeeds storing the wrapped-around
value `start_epoch + (2^64 - step)`, which lies above `start_epoch`
(with `overflow-checks` enabled the same call would instead trap — in
neither case is a typed error returned or a cursor below `start_epoch`
stored). -/
theorem init_underflow_wraps (id rec tok se : Nat) (am : Int)
    (st : Nat) (s : Store) (hTok : s.tokenId = none) (hst : st ≠ 0)
    (ham : i128wrap (am * (st : Int)) ≠ 0) (hlt : se < st)
    (hstU : st < U64) :
    (init (.account id) rec tok se am st s).fst = .ok () ∧
    (init (.account id) rec tok se am st s).snd.latest =
      some (se + (U64 - st)) ∧
    se < se + (U64 - st) := by
  have hsub : u64sub se st = se + (U64 - st) := by
    unfold u64sub
    rw [Nat.mod_eq_of_lt (by omega)]
    omega
  have h0 : init (.account id) rec tok se am st s =
      (.ok (), ⟨some id, some rec, some tok, some se, some am, some st,
                some (u64sub se st)⟩) := by
    rw [init_uninit _ _ _ _ _ _ _ hTok, if_neg hst, if_neg ham]
  refine ⟨?_, ?_, by omega⟩
  · rw [h0]
  · rw [h0]
    dsimp only
    rw [hsub]

/-- Witness for C10: `start_epoch = 3 < step = 5` leaves
`latest = 3 + (2^64 - 5)`, far above `start_epoch`. -/
theorem init_underflow_wraps_witness :
    (init (.account 1) 2 3 3 10 5 emptyStore).fst = .ok () ∧
    (init (.account 1) 2 3 3 10 5 emptyStore).snd.latest =
      some (3 + (U64 - 5)) ∧
    3 < 3 + (U64 - 5) :=
  init_underflow_wraps 1 2 3 3 10 5 emptyStore rfl (by decide)
    (by decide) (by decide) (by decide)

end RecurringRevenue
